import Mathlib

/-!
Verification development for the procedural 3D-city repository.

Shallow embedding of the core components (grid/road builder, traffic
simulation, pedestrian simulation, level-of-detail streaming cache,
window-light registry) as executable Lean definitions, followed by
theorems settling the specification claims.

Modelling conventions, used uniformly below:
* JavaScript numbers are modelled as `ℚ`; every quantity occurring in the
  claims is produced by exact arithmetic in the source (the grid uses only
  `+ - * /` on halves of integers), so no rounding is lost.
* `Math.random()` draws are threaded as explicit oracle parameters, one
  per draw site, so every definition is a deterministic function of its
  oracles; theorems quantify over the oracles.
* Where the source compares `Math.sqrt d2` against a bound `b ≥ 0`, the
  embedding compares `d2` with `b ^ 2`, which is equivalent over the reals;
  where the source divides by a computed `Math.sqrt`, the embedding takes
  the length as an explicit parameter (constrained in the theorems by the
  defining equation `len ^ 2 = d2`).
* Scene-graph operations that only move or rotate meshes (visual position,
  heading, gait wobble) are omitted: no claim mentions them.
-/

/-- A ground-plane point; the source stores road endpoints as `{x, z}`. -/
structure Point where
  x : ℚ
  z : ℚ
deriving DecidableEq, Repr

/-- Cardinal direction class of a road, crosswalk or light phase
(source strings "east-west" / "north-south"). -/
inductive Dir where
  | eastWest
  | northSouth
deriving DecidableEq, Repr

/-- A road segment as pushed onto `City.roadNetwork`
(`{start, end, direction}`; `end` is a Lean keyword, hence `end_`). -/
structure Road where
  start : Point
  end_ : Point
  direction : Dir
deriving DecidableEq, Repr

/-- A sidewalk area as pushed onto `City.sidewalks`. -/
structure SidewalkZone where
  x : ℚ
  z : ℚ
  width : ℚ
  depth : ℚ
  innerWidth : ℚ
  innerDepth : ℚ
deriving DecidableEq, Repr

/-- A crosswalk area as pushed onto `City.crosswalks`. -/
structure Crosswalk where
  x : ℚ
  z : ℚ
  width : ℚ
  depth : ℚ
  direction : Dir
deriving DecidableEq, Repr

/-- The `City` constructor parameters. -/
structure CityConfig where
  citySize : ℚ
  blockSize : ℚ
  sidewalkWidth : ℚ
  roadWidth : ℚ
deriving DecidableEq, Repr

/-- Default configuration from the `City` constructor:
`citySize = 300`, `blockSize = 50`, `sidewalkWidth = 5`, `roadWidth = 10`. -/
def defaultConfig : CityConfig :=
  { citySize := 300, blockSize := 50, sidewalkWidth := 5, roadWidth := 10 }

/-- Squared planar distance between two points. -/
def dist2 (p q : Point) : ℚ :=
  (p.x - q.x) ^ 2 + (p.z - q.z) ^ 2

namespace City

/-- `Math.floor(citySize / (blockSize + roadWidth))` from `createGridSystem`
(the count is nonnegative for any sensible configuration, so `toNat` is
lossless there). -/
def blockCount (cfg : CityConfig) : ℕ :=
  (⌊cfg.citySize / (cfg.blockSize + cfg.roadWidth)⌋).toNat

/-- The loop `for (x = -blockCount/2; x < blockCount/2; x++)` visits exactly
the half-integers `-n/2, -n/2 + 1, …` while they stay below `n/2`: that is
`n` values (all arithmetic on halves of integers is exact in floats). -/
def blockCoords (n : ℕ) : List ℚ :=
  (List.range n).map (fun (i : ℕ) => -(n : ℚ) / 2 + (i : ℚ))

/-- The east-west road segment registered by `createRoad(baseX, baseZ, true)`. -/
def ewRoad (cfg : CityConfig) (baseX baseZ : ℚ) : Road :=
  { start := { x := baseX - cfg.blockSize / 2 - cfg.roadWidth
             , z := baseZ + cfg.blockSize / 2 + cfg.roadWidth / 2 }
  , end_ := { x := baseX + cfg.blockSize / 2 + cfg.roadWidth
            , z := baseZ + cfg.blockSize / 2 + cfg.roadWidth / 2 }
  , direction := Dir.eastWest }

/-- The north-south road segment registered by `createRoad(baseX, baseZ, false)`. -/
def nsRoad (cfg : CityConfig) (baseX baseZ : ℚ) : Road :=
  { start := { x := baseX + cfg.blockSize / 2 + cfg.roadWidth / 2
             , z := baseZ - cfg.blockSize / 2 - cfg.roadWidth }
  , end_ := { x := baseX + cfg.blockSize / 2 + cfg.roadWidth / 2
            , z := baseZ + cfg.blockSize / 2 + cfg.roadWidth }
  , direction := Dir.northSouth }

/-- The crosswalk record registered by `createCrosswalk(x, z, isEastWest)`. -/
def mkCrosswalk (cfg : CityConfig) (x z : ℚ) (isEastWest : Bool) : Crosswalk :=
  { x := x
  , z := z
  , width := if isEastWest then cfg.roadWidth - 1 else 5
  , depth := if isEastWest then 5 else cfg.roadWidth - 1
  , direction := if isEastWest then Dir.eastWest else Dir.northSouth }

/-- Everything one `createCityBlock(blockX, blockZ)` call registers in the
shared collections (the block pavement mesh and traffic-light poles are
scene decoration; the crosswalk pair depends on one `Math.random() < 0.7`
roll, passed in as `crossRoll`). -/
structure CityBlock where
  blockX : ℚ
  blockZ : ℚ
  baseX : ℚ
  baseZ : ℚ
  sidewalk : SidewalkZone
  roads : List Road
  crosswalks : List Crosswalk
deriving DecidableEq, Repr

/-- `createCityBlock`: base position `blockX·(blockSize+roadWidth)`, one
sidewalk area, one east-west and one north-south road, and (with the 70%
roll) a crosswalk pair at the block's outer corner. -/
def createCityBlock (cfg : CityConfig) (crossRoll : Bool) (blockX blockZ : ℚ) : CityBlock :=
  let baseX := blockX * (cfg.blockSize + cfg.roadWidth)
  let baseZ := blockZ * (cfg.blockSize + cfg.roadWidth)
  { blockX := blockX
  , blockZ := blockZ
  , baseX := baseX
  , baseZ := baseZ
  , sidewalk :=
      { x := baseX, z := baseZ, width := cfg.blockSize, depth := cfg.blockSize
      , innerWidth := cfg.blockSize - cfg.sidewalkWidth * 2
      , innerDepth := cfg.blockSize - cfg.sidewalkWidth * 2 }
  , roads := [ewRoad cfg baseX baseZ, nsRoad cfg baseX baseZ]
  , crosswalks :=
      if crossRoll then
        [ mkCrosswalk cfg (baseX + cfg.blockSize / 2 + cfg.roadWidth / 2) baseZ true
        , mkCrosswalk cfg baseX (baseZ + cfg.blockSize / 2 + cfg.roadWidth / 2) false ]
      else [] }

/-- `createGridSystem`: the double loop over block coordinates, outer `x`,
inner `z`; `crossOracle` supplies each block's crosswalk roll. -/
def createGridSystem (cfg : CityConfig) (crossOracle : ℚ → ℚ → Bool) : List CityBlock :=
  (blockCoords (blockCount cfg)).flatMap (fun bx =>
    (blockCoords (blockCount cfg)).map (fun bz =>
      createCityBlock cfg (crossOracle bx bz) bx bz))

/-- The flat `City.roadNetwork` collection accumulated by the grid loop. -/
def roadNetworkOf (blocks : List CityBlock) : List Road :=
  blocks.flatMap (fun b => b.roads)

/-- The road network generated under the default configuration (it does not
depend on the crosswalk rolls). -/
def defaultRoadNetwork : List Road :=
  roadNetworkOf (createGridSystem defaultConfig (fun _ _ => true))

/-- The default grid's city blocks (crosswalk rolls all taken as true;
no claim below depends on them). -/
def defaultBlocks : List CityBlock :=
  createGridSystem defaultConfig (fun _ _ => true)

/-- The five landmark block positions pushed by `createLandmarkBuildings`
(each coordinate a multiple of `blockSize + roadWidth`). -/
def landmarkPositions (cfg : CityConfig) : List Point :=
  let u := cfg.blockSize + cfg.roadWidth
  [ { x := 0, z := 0 }
  , { x := 2 * u, z := -1 * u }
  , { x := -2 * u, z := 3 * u }
  , { x := 3 * u, z := 2 * u }
  , { x := 2 * u, z := 3 * u } ]

/-- The landmark-reservation test at the top of `createBuildingsOnBlock`:
`landmarkPositions.some(pos => |pos.x - baseX| < 1 && |pos.z - baseZ| < 1)`. -/
def isLandmarkPosition (landmarks : List Point) (baseX baseZ : ℚ) : Bool :=
  landmarks.any (fun pos => decide (|pos.x - baseX| < 1 ∧ |pos.z - baseZ| < 1))

/-- Whether `createBuildingsOnBlock(blockX, blockZ)` reaches its generic
structure generation (true) or returns early on the landmark skip (false). -/
def buildingsGeneratedOnBlock (cfg : CityConfig) (landmarks : List Point)
    (blockX blockZ : ℚ) : Bool :=
  let baseX := blockX * (cfg.blockSize + cfg.roadWidth)
  let baseZ := blockZ * (cfg.blockSize + cfg.roadWidth)
  !(isLandmarkPosition landmarks baseX baseZ)

end City

namespace Traffic

/-- `Traffic.isClosePoints`: the source tests `Math.sqrt(dx² + dz²) < 0.5`;
for a nonnegative radicand that is equivalent to `dx² + dz² < 0.25`. -/
def isClosePoints (p q : Point) : Bool :=
  decide (dist2 p q < 1 / 4)

/-- `Math.round` in JavaScript rounds half-up (also for negatives):
`Math.round(q) = ⌊q + 1/2⌋`. -/
def jsRound (q : ℚ) : ℤ :=
  ⌊q + 1 / 2⌋

/-- One intersection record from `initializeTrafficLights`
(`{x, z, roads, state, timer}`). -/
structure Intersection where
  x : ℚ
  z : ℚ
  roads : List Road
  state : Dir
  timer : ℚ
deriving Repr

/-- `initializeTrafficLights`: group roads by the rounded coordinates of
their end point; the first road seen for a key creates the intersection at
its exact end point with a random initial phase (`stateO key`) and a random
timer offset `Math.random() * 10` (`timerO key` is that draw); later roads
with the same key are appended to `roads`.  Insertion order of a JS object
is first-seen key order, matched by the fold below. -/
def initializeTrafficLights (net : List Road)
    (stateO : ℤ × ℤ → Dir) (timerO : ℤ × ℤ → ℚ) : List Intersection :=
  let step := fun (acc : List ((ℤ × ℤ) × Intersection)) (road : Road) =>
    let key := (jsRound road.end_.x, jsRound road.end_.z)
    if acc.any (fun e => decide (e.1 = key)) then
      acc.map (fun e =>
        if e.1 = key then (e.1, { e.2 with roads := e.2.roads ++ [road] }) else e)
    else
      acc ++ [(key,
        { x := road.end_.x, z := road.end_.z, roads := [road]
        , state := stateO key, timer := timerO key * 10 })]
  (net.foldl step []).map (fun e => e.2)

/-- A vehicle's simulation state (`{road, progress, speed}`; the mesh and
its heading are scene decoration). -/
structure Vehicle where
  road : Road
  progress : ℚ
  speed : ℚ
deriving DecidableEq, Repr

/-- `Traffic.vehicleSpeed` (units per second). -/
def vehicleSpeed : ℚ := 15

/-- `createVehicle(type, road, progress)` as far as simulation state goes:
`progress` is the placement draw from `createVehicles`, and
`speed = vehicleSpeed * (0.8 + Math.random() * 0.4)` with `speedRand` that
draw. -/
def createVehicle (road : Road) (progress speedRand : ℚ) : Vehicle :=
  { road := road, progress := progress
  , speed := vehicleSpeed * (4 / 5 + 2 / 5 * speedRand) }

/-- `Traffic.findNextRoad`: filter the network for roads whose start is
close to the current road's end; prefer same-direction candidates; pick a
uniformly random element of the preferred list (`choice` determinizes
`Math.floor(Math.random() * length)` as `choice % length`). -/
def findNextRoad (net : List Road) (cur : Road) (choice : ℕ) : Option Road :=
  let possibleRoads := net.filter (fun road => isClosePoints road.start cur.end_)
  match possibleRoads with
  | [] => none
  | p :: ps =>
    let sameDirectionRoads :=
      (p :: ps).filter (fun road => decide (road.direction = cur.direction))
    match sameDirectionRoads with
    | [] => some ((p :: ps).getD (choice % (p :: ps).length) p)
    | q :: qs => some ((q :: qs).getD (choice % (q :: qs).length) q)

/-- `Traffic.checkTrafficLight`: locate the intersection close to the
current road's end (`Array.find`, first match); with no intersection the
vehicle may proceed; otherwise permission requires the next road's
direction to equal the light state. -/
def checkTrafficLight (inters : List Intersection) (cur next : Road) : Bool :=
  match inters.find? (fun i => isClosePoints { x := i.x, z := i.z } cur.end_) with
  | none => true
  | some i => decide (next.direction = i.state)

/-- `Traffic.updateVehicle`.  `roadLen` stands for
`calculateRoadLength(vehicle.road) = √(dx² + dz²)` (theorems constrain it
by `roadLen ^ 2 = dist2 road.start road.end_` where it matters); `choice1`
determinizes the candidate pick inside `findNextRoad`, `choice2` the
dead-end re-placement draw.  In the red-light branch the source executes
`newProgress = 0.98`, which writes the *local* variable only — dead code,
since the local is never read afterwards — so `vehicle.progress` keeps its
previous value; the embedding therefore returns the vehicle unchanged
there.  The final mesh-position update is scene decoration. -/
def updateVehicle (net : List Road) (inters : List Intersection) (v : Vehicle)
    (delta roadLen : ℚ) (choice1 choice2 : ℕ) : Vehicle :=
  let newProgress := v.progress + delta * v.speed / roadLen
  if 1 ≤ newProgress then
    match findNextRoad net v.road choice1 with
    | some nextRoad =>
      if checkTrafficLight inters v.road nextRoad then
        { v with road := nextRoad, progress := 0 }
      else
        v
    | none =>
      { v with road := net.getD (choice2 % net.length) v.road, progress := 0 }
  else
    { v with progress := newProgress }

end Traffic

namespace LOD

/-- A registry entry (`blockInfo`) of `LevelOfDetail.blockRegistry`:
`{x, z, createBuildingsFn, buildings, isActive, baseX, baseZ}` plus the
lazily-added `buildingsCounted` marker.  `H` is the opaque type of visual
handles returned by the build function. -/
structure BlockRecord (H : Type) where
  x : ℚ
  z : ℚ
  createBuildingsFn : ℚ → ℚ → List H
  buildings : List H
  isActive : Bool
  baseX : ℚ
  baseZ : ℚ
  buildingsCounted : Bool

/-- The `stats` debug counters (kept because the source mutates them;
`activeBuildings` may in principle be decremented, hence `ℤ`). -/
structure LODStats where
  totalBuildings : ℤ
  activeBuildings : ℤ
  totalBlocks : ℤ
  activeBlocks : ℤ
deriving DecidableEq, Repr

/-- The mutable state of a `LevelOfDetail` instance.  The JS `Map` keyed by
the string `"x,z"` is modelled as an association list keyed by the pair
`(x, z)` (the string key is injective on coordinate pairs); the `Set`
`activeBlocks` as a duplicate-free list; the scene as the list of handles it
contains.  `buildCalls` is instrumentation not present in the source: it
counts invocations of a stored `createBuildingsFn`, letting theorems state
that an operation performs no build. -/
structure LODState (H : Type) where
  blockSize : ℚ
  roadWidth : ℚ
  viewDistance : ℚ
  blockRegistryDistance : ℚ
  updateFrequency : ℚ
  updateTimer : ℚ
  cameraX : ℚ
  cameraZ : ℚ
  registry : List ((ℚ × ℚ) × BlockRecord H)
  activeBlocks : List (ℚ × ℚ)
  scene : List H
  stats : LODStats
  buildCalls : ℕ

/-- The `LevelOfDetail` constructor: `viewDistance = 600`,
`blockRegistryDistance = 1200`, `updateFrequency = 0.5`, empty registry. -/
def mkLOD (H : Type) (blockSize roadWidth cameraX cameraZ : ℚ) : LODState H :=
  { blockSize := blockSize, roadWidth := roadWidth
  , viewDistance := 600, blockRegistryDistance := 1200
  , updateFrequency := 1 / 2, updateTimer := 0
  , cameraX := cameraX, cameraZ := cameraZ
  , registry := [], activeBlocks := [], scene := []
  , stats := { totalBuildings := 0, activeBuildings := 0, totalBlocks := 0, activeBlocks := 0 }
  , buildCalls := 0 }

variable {H : Type}

/-- `blockRegistry.get(blockKey)`. -/
def findRecord (s : LODState H) (key : ℚ × ℚ) : Option (BlockRecord H) :=
  (s.registry.find? (fun e => decide (e.1 = key))).map (fun e => e.2)

/-- Replace the record stored under `key` (in-place mutation of the `Map`
entry in the source). -/
def setRecord (s : LODState H) (key : ℚ × ℚ) (r : BlockRecord H) : LODState H :=
  { s with registry := s.registry.map (fun e => if e.1 = key then (key, r) else e) }

/-- `registerBlock(blockX, blockZ, createBuildingsFn)`: only if the key is
absent, store a fresh inactive record with an empty `buildings` list; the
factory is stored, not invoked. -/
def registerBlock (s : LODState H) (blockX blockZ : ℚ) (fn : ℚ → ℚ → List H) :
    LODState H :=
  let key := (blockX, blockZ)
  if (findRecord s key).isSome then s
  else
    { s with
      registry := s.registry ++ [(key,
        { x := blockX, z := blockZ, createBuildingsFn := fn
        , buildings := [], isActive := false
        , baseX := blockX * (s.blockSize + s.roadWidth)
        , baseZ := blockZ * (s.blockSize + s.roadWidth)
        , buildingsCounted := false })]
    , stats := { s.stats with totalBlocks := s.stats.totalBlocks + 1 } }

/-- `activateBlock(blockKey)`: if registered and not active, invoke the
stored factory, store the handles, mark active, and update the counters. -/
def activateBlock (s : LODState H) (key : ℚ × ℚ) : LODState H :=
  match findRecord s key with
  | none => s
  | some block =>
    if block.isActive then s
    else
      let buildings := block.createBuildingsFn block.x block.z
      let s1 := setRecord s key
        { block with buildings := buildings, isActive := true, buildingsCounted := true }
      { s1 with
        activeBlocks :=
          if key ∈ s1.activeBlocks then s1.activeBlocks else s1.activeBlocks ++ [key]
      , buildCalls := s1.buildCalls + 1
      , stats := { s1.stats with
          totalBuildings := s1.stats.totalBuildings +
            (if block.buildingsCounted then 0 else (buildings.length : ℤ))
        , activeBuildings := s1.stats.activeBuildings + (buildings.length : ℤ)
        , activeBlocks := s1.stats.activeBlocks + 1 } }

/-- `deactivateBlock(blockKey)`: if registered and active, remove every
stored handle from the scene (`List.erase`; handles are created fresh per
activation, and child removal acts on the same opaque handles), clear the
list, mark inactive, update counters. -/
def deactivateBlock [DecidableEq H] (s : LODState H) (key : ℚ × ℚ) : LODState H :=
  match findRecord s key with
  | none => s
  | some block =>
    if block.isActive then
      let s1 := setRecord s key { block with buildings := [], isActive := false }
      { s1 with
        scene := block.buildings.foldl (fun sc b => sc.erase b) s1.scene
      , activeBlocks := s1.activeBlocks.filter (fun k => decide (k ≠ key))
      , stats := { s1.stats with
          activeBuildings := s1.stats.activeBuildings - (block.buildings.length : ℤ)
        , activeBlocks := s1.stats.activeBlocks - 1 } }
    else s

/-- `unregisterBlock(blockKey)`: deactivate if needed, then drop the record. -/
def unregisterBlock [DecidableEq H] (s : LODState H) (key : ℚ × ℚ) : LODState H :=
  match findRecord s key with
  | none => s
  | some block =>
    let s1 := if block.isActive then deactivateBlock s key else s
    { s1 with
      registry := s1.registry.filter (fun e => decide (e.1 ≠ key))
    , stats := { s1.stats with totalBlocks := s1.stats.totalBlocks - 1 } }

/-- `shouldBlockBeActive`: squared planar camera distance against
`viewDistance²`. -/
def shouldBlockBeActive (s : LODState H) (block : BlockRecord H) : Bool :=
  decide ((block.baseX - s.cameraX) ^ 2 + (block.baseZ - s.cameraZ) ^ 2
            ≤ s.viewDistance ^ 2)

/-- `shouldBlockBeUnregistered`: squared planar camera distance against
`blockRegistryDistance²`. -/
def shouldBlockBeUnregistered (s : LODState H) (block : BlockRecord H) : Bool :=
  decide (s.blockRegistryDistance ^ 2 <
            (block.baseX - s.cameraX) ^ 2 + (block.baseZ - s.cameraZ) ^ 2)

/-- `updateVisibility`: scan all registered blocks and apply exactly one of
unregister / activate / deactivate.  The source iterates the live `Map`;
each entry is visited once and is only modified by its own step, so folding
over the entry snapshot is equivalent. -/
def updateVisibility [DecidableEq H] (s : LODState H) : LODState H :=
  s.registry.foldl (fun st e =>
    if shouldBlockBeUnregistered st e.2 then unregisterBlock st e.1
    else if shouldBlockBeActive st e.2 && !e.2.isActive then activateBlock st e.1
    else if !(shouldBlockBeActive st e.2) && e.2.isActive then deactivateBlock st e.1
    else st) s

/-- `update(deltaTime)`: accumulate the timer; on reaching
`updateFrequency`, reset it and run the visibility scan. -/
def update [DecidableEq H] (s : LODState H) (deltaTime : ℚ) : LODState H :=
  let s1 := { s with updateTimer := s.updateTimer + deltaTime }
  if s1.updateFrequency ≤ s1.updateTimer then
    updateVisibility { s1 with updateTimer := 0 }
  else s1

end LOD

namespace Ped

/-- Pedestrian behaviour states (source strings). -/
inductive PedState where
  | idle
  | walking
  | crossing
  | waiting
deriving DecidableEq, Repr

/-- A pedestrian's simulation state (mesh/heading/gait are scene
decoration; `position` is kept as its ground-plane coordinates). -/
structure Pedestrian where
  currentSidewalk : SidewalkZone
  targetSidewalk : Option SidewalkZone
  currentCrosswalk : Option Crosswalk
  posX : ℚ
  posZ : ℚ
  targetPosition : Option Point
  speed : ℚ
  state : PedState
  waitTime : ℚ
  path : List Point
deriving DecidableEq, Repr

/-- The random draws one `updatePedestrian` call may consume, threaded
explicitly.  `distHint` stands for the value of the `Math.sqrt` inside
`Vector3.normalize` when a partial move is taken (its faithful value is the
Euclidean distance to the target; no claim depends on the coordinates the
partial move produces, so theorems quantify over it). -/
structure PedRand where
  behavior : ℚ
  perim1 : ℚ
  pos1 : ℚ
  perim2 : ℚ
  pos2 : ℚ
  oppChoice : ℕ
  waitDraw : ℚ
  distHint : ℚ
deriving DecidableEq, Repr

/-- `calculateRandomPositionOnSidewalk`: pick one of the four perimeter
edges by the `perimeter` draw, then a uniform point (draw `r`) on that edge
inside a margin of 1. -/
def calculateRandomPositionOnSidewalk (sw : SidewalkZone) (perimeter r : ℚ) : Point :=
  let margin : ℚ := 1
  if perimeter < 1 / 4 then
    { x := sw.x - sw.width / 2 + margin + r * (sw.width - margin * 2)
    , z := sw.z - sw.depth / 2 + margin }
  else if perimeter < 1 / 2 then
    { x := sw.x + sw.width / 2 - margin
    , z := sw.z - sw.depth / 2 + margin + r * (sw.depth - margin * 2) }
  else if perimeter < 3 / 4 then
    { x := sw.x - sw.width / 2 + margin + r * (sw.width - margin * 2)
    , z := sw.z + sw.depth / 2 - margin }
  else
    { x := sw.x - sw.width / 2 + margin
    , z := sw.z - sw.depth / 2 + margin + r * (sw.depth - margin * 2) }

/-- `setIdleBehavior`: state `idle`, wait timer `1 + Math.random() * 4`. -/
def setIdleBehavior (p : Pedestrian) (o : PedRand) : Pedestrian :=
  { p with state := PedState.idle, waitTime := 1 + o.waitDraw * 4 }

/-- `setWalkingBehavior`: state `walking` and a fresh random target on the
current sidewalk (facing rotation is scene decoration). -/
def setWalkingBehavior (p : Pedestrian) (o : PedRand) : Pedestrian :=
  { p with
    state := PedState.walking
  , targetPosition :=
      some (calculateRandomPositionOnSidewalk p.currentSidewalk o.perim1 o.pos1) }

/-- `findNearestCrosswalk`: strict-minimum scan of crosswalk distances,
accepted only below 30 units.  The source compares square roots; comparing
the squared distances (bound `30² = 900`) selects the same minimizer. -/
def findNearestCrosswalk (crosswalks : List Crosswalk) (pos : Point) :
    Option Crosswalk :=
  let best := crosswalks.foldl (fun (acc : Option (Crosswalk × ℚ)) cw =>
    let d2 := dist2 { x := cw.x, z := cw.z } pos
    match acc with
    | none => some (cw, d2)
    | some (b, m) => if d2 < m then some (cw, d2) else some (b, m)) none
  match best with
  | none => none
  | some (cw, m) => if m < 900 then some cw else none

/-- `findOppositeSidewalk`: filter sidewalks roughly across the crosswalk
from the current one and pick a random candidate.  The source's
`sidewalk === currentSidewalk` is JS reference equality; the sidewalk
records generated by the grid are pairwise distinct, so value equality
coincides with it. -/
def findOppositeSidewalk (sidewalks : List SidewalkZone) (cur : SidewalkZone)
    (cw : Crosswalk) (choice : ℕ) : Option SidewalkZone :=
  if sidewalks.length ≤ 1 then none
  else
    let candidateSidewalks := sidewalks.filter (fun sw =>
      if sw = cur then false
      else
        let dx := |sw.x - cur.x|
        let dz := |sw.z - cur.z|
        if cw.direction = Dir.eastWest then decide (dx < 30 ∧ 5 < dz ∧ dz < 100)
        else decide (dz < 30 ∧ 5 < dx ∧ dx < 100))
    match candidateSidewalks with
    | [] => none
    | c :: cs => some ((c :: cs).getD (choice % (c :: cs).length) c)

/-- `setCrossingBehavior`: find a crosswalk (else walk); mark `crossing` and
remember the crosswalk; find an opposite sidewalk (else walk — note the
source has already set `state = 'crossing'` and `currentCrosswalk` at that
point, and `setWalkingBehavior` only overwrites the state); otherwise lay
the 3-point path entry → exit → random point of the target sidewalk. -/
def setCrossingBehavior (sidewalks : List SidewalkZone) (crosswalks : List Crosswalk)
    (p : Pedestrian) (o : PedRand) : Pedestrian :=
  match findNearestCrosswalk crosswalks { x := p.posX, z := p.posZ } with
  | none => setWalkingBehavior p o
  | some cw =>
    let p1 := { p with state := PedState.crossing, currentCrosswalk := some cw }
    match findOppositeSidewalk sidewalks p.currentSidewalk cw o.oppChoice with
    | none => setWalkingBehavior p1 o
    | some ts =>
      let cwStart : Point :=
        { x := cw.x - (if cw.direction = Dir.eastWest then 0 else cw.width / 2)
        , z := cw.z - (if cw.direction = Dir.northSouth then 0 else cw.depth / 2) }
      let cwEnd : Point :=
        { x := cw.x + (if cw.direction = Dir.eastWest then 0 else cw.width / 2)
        , z := cw.z + (if cw.direction = Dir.northSouth then 0 else cw.depth / 2) }
      { p1 with
        targetSidewalk := some ts
      , path := [cwStart, cwEnd, calculateRandomPositionOnSidewalk ts o.perim2 o.pos2]
      , targetPosition := some cwStart }

/-- The source's arrival test `distanceToMove >= distanceToTarget` compares
against `Math.sqrt(d2)`; equivalently the move is nonnegative and its
square at least `d2`. -/
def reachesTarget (dMove d2 : ℚ) : Bool :=
  decide (0 ≤ dMove ∧ d2 ≤ dMove ^ 2)

/-- The partial move `position += normalize(target - position) * dMove`;
`o.distHint` stands for the `Math.sqrt` inside `normalize` (faithfully the
Euclidean distance to the target). -/
def movePartial (p : Pedestrian) (target : Point) (dMove : ℚ) (o : PedRand) :
    Pedestrian :=
  { p with
    posX := p.posX + (target.x - p.posX) / o.distHint * dMove
  , posZ := p.posZ + (target.z - p.posZ) / o.distHint * dMove }

/-- `updateIdlePedestrian`: count the timer down; on expiry walk with
probability 0.8, else try to cross. -/
def updateIdlePedestrian (sidewalks : List SidewalkZone) (crosswalks : List Crosswalk)
    (p : Pedestrian) (delta : ℚ) (o : PedRand) : Pedestrian :=
  let p1 := { p with waitTime := p.waitTime - delta }
  if p1.waitTime ≤ 0 then
    if o.behavior < 4 / 5 then setWalkingBehavior p1 o
    else setCrossingBehavior sidewalks crosswalks p1 o
  else p1

/-- `updateWalkingPedestrian`: snap-and-idle on arrival, else partial move.
With a null target the source would dereference `null` (it never happens
from the driven states and no claim exercises it); the embedding leaves
the pedestrian unchanged there. -/
def updateWalkingPedestrian (p : Pedestrian) (delta : ℚ) (o : PedRand) : Pedestrian :=
  match p.targetPosition with
  | none => p
  | some target =>
    let dMove := p.speed * delta
    if reachesTarget dMove (dist2 { x := p.posX, z := p.posZ } target) then
      setIdleBehavior { p with posX := target.x, posZ := target.z } o
    else
      movePartial p target dMove o

/-- `updateCrossingPedestrian`: guard — a missing target or an empty path
resets to idle; on arrival shift the path and either finish the crossing
(adopt the target sidewalk — `getD` keeps the current one if the source
would write `null` — clear crossing state, idle) or head for the next path
point; otherwise partial move. -/
def updateCrossingPedestrian (p : Pedestrian) (delta : ℚ) (o : PedRand) : Pedestrian :=
  match p.targetPosition, p.path with
  | none, _ => setIdleBehavior p o
  | some _, [] => setIdleBehavior p o
  | some target, _ :: rest =>
    let dMove := p.speed * delta
    if reachesTarget dMove (dist2 { x := p.posX, z := p.posZ } target) then
      let p1 := { p with posX := target.x, posZ := target.z, path := rest }
      match rest with
      | [] =>
        setIdleBehavior
          { p1 with
            currentSidewalk := p1.targetSidewalk.getD p1.currentSidewalk
          , targetSidewalk := none
          , currentCrosswalk := none } o
      | q :: _ => { p1 with targetPosition := some q }
    else
      movePartial p target dMove o

/-- `updateWaitingPedestrian`: count the timer down; on expiry set the
state directly to `crossing`. -/
def updateWaitingPedestrian (p : Pedestrian) (delta : ℚ) : Pedestrian :=
  let p1 := { p with waitTime := p.waitTime - delta }
  if p1.waitTime ≤ 0 then { p1 with state := PedState.crossing } else p1

/-- `updatePedestrian`: dispatch on the state string. -/
def updatePedestrian (sidewalks : List SidewalkZone) (crosswalks : List Crosswalk)
    (p : Pedestrian) (delta : ℚ) (o : PedRand) : Pedestrian :=
  match p.state with
  | PedState.idle => updateIdlePedestrian sidewalks crosswalks p delta o
  | PedState.walking => updateWalkingPedestrian p delta o
  | PedState.crossing => updateCrossingPedestrian p delta o
  | PedState.waiting => updateWaitingPedestrian p delta

end Ped

namespace Win

/-- The two window materials of `City.materials`.  Crucially these are
*single shared instances* in the source: every lit window mesh references
the same `materials.windowLit` object. -/
inductive MatId where
  | glassWindow
  | windowLit
deriving DecidableEq, Repr

/-- One window plane created by `createWindowGrid` (side-face rotation kept
as the `rotated` flag; `mat` is the reference to the shared material). -/
structure WindowMesh where
  posX : ℚ
  posY : ℚ
  posZ : ℚ
  rotated : Bool
  mat : MatId
deriving DecidableEq, Repr

/-- One `windowLights` registry entry `{mesh, intensity}`; of the mesh only
its material reference matters to `updateWindowLights`. -/
structure WindowLightEntry where
  mat : MatId
  intensity : ℚ
deriving DecidableEq, Repr

/-- Initial `emissiveIntensity` per material: `materials.windowLit` is
created with 0.6; `materials.glassWindow` is a Lambert material with no
emissive term (modelled as 0, never read by any claim). -/
def initialEmissive : MatId → ℚ
  | MatId.glassWindow => 0
  | MatId.windowLit => 3 / 5

/-- One window of `createWindowsOnFace(isXFace, sign)` at `(row, col)`. -/
def mkWindow (bw bh bd xOff yOff zOff : ℚ) (rows cols : ℕ)
    (isXFace : Bool) (sign : ℚ) (row col : ℕ) (isLit : Bool) : WindowMesh :=
  let offset : ℚ := 1 / 20
  let colOffset := ((col : ℚ) - ((cols : ℚ) - 1) / 2) * (bw / cols)
  let rowOffset := ((row : ℚ) - ((rows : ℚ) - 1) / 2) * (bh / rows)
  if isXFace then
    { posX := colOffset + xOff
    , posY := rowOffset + yOff
    , posZ := sign * bd / 2 + sign * offset + zOff
    , rotated := false
    , mat := if isLit then MatId.windowLit else MatId.glassWindow }
  else
    { posX := sign * bw / 2 + sign * offset + xOff
    , posY := rowOffset + yOff
    , posZ := colOffset + zOff
    , rotated := true
    , mat := if isLit then MatId.windowLit else MatId.glassWindow }

/-- `City.createWindowGrid`: four faces in source order, rows outer and
columns inner; each window draws `isLit = Math.random() < 0.3` and, when
lit, pushes `{mesh, intensity: 0.4 + Math.random() * 0.6}` onto
`windowLights`.  `rand face row col` supplies that pair of draws.  Each
element of the result pairs the created window with its registry entry
(`none` for unlit windows); the scene receives every window, the registry
the `filterMap` of the second components, in the same order as the source
pushes them. -/
def createWindowGrid (rows cols : ℕ) (bw bh bd xOff yOff zOff : ℚ)
    (rand : ℕ → ℕ → ℕ → ℚ × ℚ) : List (WindowMesh × Option WindowLightEntry) :=
  let faces : List (ℕ × Bool × ℚ) :=
    [(0, true, 1), (1, true, -1), (2, false, 1), (3, false, -1)]
  faces.flatMap (fun f =>
    (List.range rows).flatMap (fun row =>
      (List.range cols).map (fun col =>
        let draws := rand f.1 row col
        let isLit := decide (draws.1 < 3 / 10)
        ( mkWindow bw bh bd xOff yOff zOff rows cols f.2.1 f.2.2 row col isLit
        , if isLit then
            some { mat := MatId.windowLit, intensity := 2 / 5 + draws.2 * 3 / 5 }
          else none))))

/-- The windows a `createWindowGrid` call adds to the scene. -/
def windowsOf (l : List (WindowMesh × Option WindowLightEntry)) : List WindowMesh :=
  l.map (fun e => e.1)

/-- The `windowLights` registry entries a `createWindowGrid` call pushes. -/
def windowLightsOf (l : List (WindowMesh × Option WindowLightEntry)) :
    List WindowLightEntry :=
  l.filterMap (fun e => e.2)

/-- `City.updateWindowLights(isDaytime)`: for each registry entry in order,
assign `entry.mesh.material.emissiveIntensity = isDaytime ? 0 :
entry.intensity`.  The material table is a function `MatId → ℚ`; the fold
mirrors that each assignment mutates the *shared* material object. -/
def updateWindowLights (isDaytime : Bool) (entries : List WindowLightEntry)
    (emissive : MatId → ℚ) : MatId → ℚ :=
  entries.foldl (fun st e => fun m =>
    if m = e.mat then (if isDaytime then 0 else e.intensity) else st m) emissive

end Win

/-! Concrete scenarios referenced by the theorems below. -/

/-- A 70-unit east-west road ending at `(70, 0)`. -/
def roadA : Road :=
  { start := { x := 0, z := 0 }, end_ := { x := 70, z := 0 }, direction := Dir.eastWest }

/-- A north-south road starting exactly at `roadA`'s end. -/
def roadB : Road :=
  { start := { x := 70, z := 0 }, end_ := { x := 70, z := 70 }, direction := Dir.northSouth }

/-- A two-segment network in which `roadB` continues `roadA` through the
intersection at `(70, 0)`. -/
def gateNet : List Road := [roadA, roadB]

/-- Traffic lights for `gateNet`, every intersection starting in the
`east-west` phase. -/
def gateInters : List Traffic.Intersection :=
  Traffic.initializeTrafficLights gateNet (fun _ => Dir.eastWest) (fun _ => 1 / 2)

/-- A vehicle near the end of `roadA` (progress 0.99, full base speed). -/
def gateVehicle : Traffic.Vehicle :=
  { road := roadA, progress := 99 / 100, speed := 15 }

/-- One `updateVehicle` tick of `gateVehicle` with `delta = 1`
(`roadLen = 70` is the exact length of `roadA`). -/
def gateResult : Traffic.Vehicle :=
  Traffic.updateVehicle gateNet gateInters gateVehicle 1 70 0 0

/-- The registry key of the LOD scenario block `(5/3, 5/3)`, whose base
world position is `(100, 100)` under the default block pitch of 60. -/
def c4Key : ℚ × ℚ := (5 / 3, 5 / 3)

/-- LOD scenario: a fresh `LevelOfDetail` (camera at the origin,
`blockSize = 50`, `roadWidth = 10`) with that single block registered. -/
def c4Start (fn : ℚ → ℚ → List ℕ) : LOD.LODState ℕ :=
  LOD.registerBlock (LOD.mkLOD ℕ 50 10 0 0) (5 / 3) (5 / 3) fn

/-- After one update cycle (elapsed = updateFrequency) with the camera at
the origin. -/
def c4AfterFirst (fn : ℚ → ℚ → List ℕ) : LOD.LODState ℕ :=
  LOD.update (c4Start fn) (1 / 2)

/-- After moving the camera to `(1000, 0, 1000)` and running one more
update cycle. -/
def c4AfterSecond (fn : ℚ → ℚ → List ℕ) : LOD.LODState ℕ :=
  LOD.update { c4AfterFirst fn with cameraX := 1000, cameraZ := 1000 } (1 / 2)

/-- Window-grid draws for a 1×1 grid: the two lit faces draw intensities
`0.4 + (1/6)·0.6 = 1/2` and `0.4 + (5/6)·0.6 = 9/10`; faces 2 and 3 are
unlit. -/
def c8Rand : ℕ → ℕ → ℕ → ℚ × ℚ
  | 0, _, _ => (1 / 10, 1 / 6)
  | 1, _, _ => (1 / 5, 5 / 6)
  | _, _, _ => (9 / 10, 0)

/-- A 1-row, 1-column window grid on a 10×4×10 box with those draws. -/
def c8Grid : List (Win.WindowMesh × Option Win.WindowLightEntry) :=
  Win.createWindowGrid 1 1 10 4 10 0 2 0 c8Rand

/-- Its lit-window registry: two entries, intensities 1/2 then 9/10. -/
def c8Entries : List Win.WindowLightEntry :=
  Win.windowLightsOf c8Grid

/-- The material table after `updateWindowLights(false)` on that registry. -/
def c8Night : Win.MatId → ℚ :=
  Win.updateWindowLights false c8Entries Win.initialEmissive

/-- A pedestrian stuck in the `crossing` state with an emptied path and no
target position (the inconsistent state of the recovery claim). -/
def stuckPed : Ped.Pedestrian :=
  { currentSidewalk :=
      { x := 0, z := 0, width := 50, depth := 50, innerWidth := 40, innerDepth := 40 }
  , targetSidewalk := none
  , currentCrosswalk := none
  , posX := 0, posZ := 0
  , targetPosition := none
  , speed := 3
  , state := Ped.PedState.crossing
  , waitTime := 0
  , path := [] }

/-- A freshly created pedestrian: `idle` state with a wait timer. -/
def idlePed : Ped.Pedestrian :=
  { stuckPed with state := Ped.PedState.idle, waitTime := 2 }

/-- One fixed tuple of pedestrian random draws. -/
def pedRand0 : Ped.PedRand :=
  { behavior := 1 / 2, perim1 := 0, pos1 := 0, perim2 := 0, pos2 := 0
  , oppChoice := 0, waitDraw := 1 / 2, distHint := 1 }

/-! Theorems.  Claims C1–C10 in order, each preceded by the helper lemmas
it needs (helpers are shared, never named after a claim). -/

/-- C1 (counterexample): the claim asserts every non-boundary segment's end
is matched (within 0.5) by some other segment's start.  The east-west
segment of block `(-1/2, -1/2)` ends at `(5, 0)` — an interior location
(its block has grid neighbours on all four sides) — yet *no* segment of the
default road network starts within the matching epsilon of it. -/
theorem c1_counterexample :
    City.ewRoad defaultConfig (-30) (-30) ∈ City.defaultRoadNetwork
    ∧ (City.ewRoad defaultConfig (-30) (-30)).end_ = { x := 5, z := 0 }
    ∧ City.createCityBlock defaultConfig true (-3/2) (-1/2) ∈ City.defaultBlocks
    ∧ City.createCityBlock defaultConfig true (1/2) (-1/2) ∈ City.defaultBlocks
    ∧ City.createCityBlock defaultConfig true (-1/2) (-3/2) ∈ City.defaultBlocks
    ∧ City.createCityBlock defaultConfig true (-1/2) (1/2) ∈ City.defaultBlocks
    ∧ City.defaultRoadNetwork.all (fun t =>
        !(Traffic.isClosePoints t.start (City.ewRoad defaultConfig (-30) (-30)).end_))
        = true := by
  refine ⟨?_, ?_, ?_, ?_, ?_, ?_, ?_⟩ <;> with_unfolding_all decide

/-- C1 (amended): under the default configuration no road segment's end is
within the matching epsilon (0.5) of *any* segment's start — interior
segments included, not only the outermost boundary — so `findNextRoad`
returns `null` for every segment and every vehicle reaching a segment end
takes the random re-placement fallback (which is total, never a crash). -/
theorem c1_road_graph_closure_amended :
    City.defaultRoadNetwork.all (fun s => City.defaultRoadNetwork.all (fun t =>
      !(Traffic.isClosePoints t.start s.end_))) = true
    ∧ ∀ s ∈ City.defaultRoadNetwork, ∀ choice,
        Traffic.findNextRoad City.defaultRoadNetwork s choice = none := by
  have hall : City.defaultRoadNetwork.all (fun s => City.defaultRoadNetwork.all (fun t =>
      !(Traffic.isClosePoints t.start s.end_))) = true := by
    with_unfolding_all decide
  refine ⟨hall, ?_⟩
  intro s hs choice
  have hfilter : City.defaultRoadNetwork.filter
      (fun road => Traffic.isClosePoints road.start s.end_) = [] := by
    apply List.filter_eq_nil_iff.mpr
    intro t ht
    have h1 := List.all_eq_true.mp hall s hs
    have h2 := List.all_eq_true.mp h1 t ht
    simp only [Bool.not_eq_eq_eq_not, Bool.not_true] at h2
    simp [h2]
  simp [Traffic.findNextRoad, hfilter]

/-- C1 (witness): the amended theorem applied to the interior segment of
block `(-1/2, -1/2)`. -/
theorem c1_witness :
    Traffic.findNextRoad City.defaultRoadNetwork
      (City.ewRoad defaultConfig (-30) (-30)) 0 = none :=
  c1_road_graph_closure_amended.2 (City.ewRoad defaultConfig (-30) (-30))
    (by with_unfolding_all decide) 0

/-- C10: under the default configuration every generated block base
coordinate is an odd multiple of 30 (its quotient by 30 is an odd integer),
every landmark coordinate is a multiple of 60, no block base is within 1
unit of a landmark position, and `createBuildingsOnBlock` therefore never
takes the landmark-reservation skip: generic structures are generated on
every block, the landmark blocks included. -/
theorem c10_landmark_skip_never_taken :
    City.defaultBlocks.all (fun b =>
      decide ((b.baseX / 30).den = 1 ∧ (b.baseX / 30).num % 2 ≠ 0
        ∧ (b.baseZ / 30).den = 1 ∧ (b.baseZ / 30).num % 2 ≠ 0)) = true
    ∧ (City.landmarkPositions defaultConfig).all (fun p =>
        decide ((p.x / 60).den = 1 ∧ (p.z / 60).den = 1)) = true
    ∧ City.defaultBlocks.all (fun b =>
        !(City.isLandmarkPosition (City.landmarkPositions defaultConfig)
            b.baseX b.baseZ)) = true
    ∧ City.defaultBlocks.all (fun b =>
        City.buildingsGeneratedOnBlock defaultConfig
          (City.landmarkPositions defaultConfig) b.blockX b.blockZ) = true := by
  refine ⟨?_, ?_, ?_, ?_⟩ <;> with_unfolding_all decide

/-- Helper: length of the grid double loop. -/
theorem flatMap_map_length {α β γ : Type} (l1 : List α) (l2 : List β) (f : α → β → γ) :
    (l1.flatMap (fun a => l2.map (f a))).length = l1.length * l2.length := by
  induction l1 with
  | nil => simp
  | cons a t ih => simp [ih, Nat.succ_mul, Nat.add_comm]

/-- Helper: membership in the generated grid. -/
theorem mem_createGridSystem {cfg : CityConfig} {oracle : ℚ → ℚ → Bool} {b : City.CityBlock} :
    b ∈ City.createGridSystem cfg oracle ↔
      ∃ bx ∈ City.blockCoords (City.blockCount cfg),
        ∃ bz ∈ City.blockCoords (City.blockCount cfg),
          b = City.createCityBlock cfg (oracle bx bz) bx bz := by
  simp only [City.createGridSystem, List.mem_flatMap, List.mem_map]
  constructor
  · rintro ⟨bx, hbx, bz, hbz, rfl⟩
    exact ⟨bx, hbx, bz, hbz, rfl⟩
  · rintro ⟨bx, hbx, bz, hbz, rfl⟩
    exact ⟨bx, hbx, bz, hbz, rfl⟩

/-- Helper: every generated block's sidewalk centre is its grid coordinate
scaled by the block pitch, and its `blockX`/`blockZ` record the coordinate. -/
theorem grid_sidewalk_center {cfg : CityConfig} {oracle : ℚ → ℚ → Bool} :
    ∀ b ∈ City.createGridSystem cfg oracle,
      b.sidewalk.x = b.blockX * (cfg.blockSize + cfg.roadWidth)
      ∧ b.sidewalk.z = b.blockZ * (cfg.blockSize + cfg.roadWidth) := by
  intro b hb
  rcases mem_createGridSystem.mp hb with ⟨bx, _, bz, _, rfl⟩
  simp [City.createCityBlock]

/-- C6: for any configuration (nonnegative size, positive block pitch) the
grid builder generates exactly `blockCount² = ⌊S/(B+R)⌋²` blocks, each
contributing exactly one sidewalk zone, and the sidewalk-zone centres of
grid-adjacent blocks (grid coordinates differing by 1 in exactly one axis)
lie exactly `B + R` apart along that axis. -/
theorem c6_grid_coverage (cfg : CityConfig) (oracle : ℚ → ℚ → Bool)
    (_hS : 0 ≤ cfg.citySize) (_hBR : 0 < cfg.blockSize + cfg.roadWidth) :
    (City.createGridSystem cfg oracle).length = City.blockCount cfg ^ 2
    ∧ ((City.createGridSystem cfg oracle).map (fun b => b.sidewalk)).length
        = City.blockCount cfg ^ 2
    ∧ (∀ b₁ ∈ City.createGridSystem cfg oracle,
        ∀ b₂ ∈ City.createGridSystem cfg oracle,
        b₂.blockX = b₁.blockX + 1 → b₂.blockZ = b₁.blockZ →
          b₂.sidewalk.x - b₁.sidewalk.x = cfg.blockSize + cfg.roadWidth
          ∧ b₂.sidewalk.z = b₁.sidewalk.z)
    ∧ (∀ b₁ ∈ City.createGridSystem cfg oracle,
        ∀ b₂ ∈ City.createGridSystem cfg oracle,
        b₂.blockZ = b₁.blockZ + 1 → b₂.blockX = b₁.blockX →
          b₂.sidewalk.z - b₁.sidewalk.z = cfg.blockSize + cfg.roadWidth
          ∧ b₂.sidewalk.x = b₁.sidewalk.x) := by
  have hlen : (City.createGridSystem cfg oracle).length = City.blockCount cfg ^ 2 := by
    have hcoords : (City.blockCoords (City.blockCount cfg)).length
        = City.blockCount cfg := by
      simp only [City.blockCoords, List.length_map, List.length_range]
    unfold City.createGridSystem
    rw [flatMap_map_length, hcoords, sq]
  refine ⟨hlen, by simpa using hlen, ?_, ?_⟩
  · intro b₁ hb₁ b₂ hb₂ hx hz
    obtain ⟨hc₁x, hc₁z⟩ := grid_sidewalk_center b₁ hb₁
    obtain ⟨hc₂x, hc₂z⟩ := grid_sidewalk_center b₂ hb₂
    rw [hc₁x, hc₂x, hc₁z, hc₂z, hx, hz]
    constructor <;> ring
  · intro b₁ hb₁ b₂ hb₂ hz hx
    obtain ⟨hc₁x, hc₁z⟩ := grid_sidewalk_center b₁ hb₁
    obtain ⟨hc₂x, hc₂z⟩ := grid_sidewalk_center b₂ hb₂
    rw [hc₁x, hc₂x, hc₁z, hc₂z, hx, hz]
    constructor <;> ring

/-- C6 (witness): the default configuration instantiation — 25 blocks, and
the centres of blocks `(-1/2, -1/2)` and `(1/2, -1/2)` lie 60 units apart
in `x`. -/
theorem c6_witness :
    (City.createGridSystem defaultConfig (fun _ _ => true)).length
      = City.blockCount defaultConfig ^ 2
    ∧ ((City.createCityBlock defaultConfig true (1/2) (-1/2)).sidewalk.x
        - (City.createCityBlock defaultConfig true (-1/2) (-1/2)).sidewalk.x
          = defaultConfig.blockSize + defaultConfig.roadWidth
      ∧ (City.createCityBlock defaultConfig true (1/2) (-1/2)).sidewalk.z
          = (City.createCityBlock defaultConfig true (-1/2) (-1/2)).sidewalk.z) :=
  ⟨ (c6_grid_coverage defaultConfig (fun _ _ => true) (by norm_num [defaultConfig])
      (by norm_num [defaultConfig])).1
  , (c6_grid_coverage defaultConfig (fun _ _ => true) (by norm_num [defaultConfig])
      (by norm_num [defaultConfig])).2.2.1
      (City.createCityBlock defaultConfig true (-1/2) (-1/2))
      (by with_unfolding_all decide)
      (City.createCityBlock defaultConfig true (1/2) (-1/2))
      (by with_unfolding_all decide)
      (by with_unfolding_all decide) (by with_unfolding_all decide) ⟩

/-- C2 (evaluation at the failing input): `gateVehicle` sits at progress
0.99 on `roadA`; with `delta = 1` the computed progress passes 1, the
candidate `roadB` exists but its direction (north-south) differs from the
controlling intersection's east-west phase, so permission is denied — and
the vehicle's progress is then left at 0.99, *not* clamped to 0.98: the
source's `newProgress = 0.98` assigns a local variable that is never read
again, so the claimed clamp never reaches `vehicle.progress`, and a vehicle
already past 0.98 stays past 0.98 on the denied tick. -/
theorem c2_red_light_clamp_dead_store :
    Traffic.findNextRoad gateNet roadA 0 = some roadB
    ∧ Traffic.checkTrafficLight gateInters roadA roadB = false
    ∧ gateResult.road = roadA
    ∧ gateResult.progress = 99 / 100
    ∧ ¬ gateResult.progress = 49 / 50
    ∧ (49 : ℚ) / 50 < gateResult.progress := by
  refine ⟨?_, ?_, ?_, ?_, ?_, ?_⟩ <;> with_unfolding_all decide

/-- C3: `updateVehicle` preserves the progress invariant `0 ≤ p ≤ 1` for
any nonnegative `delta` and speed — including overshooting deltas — on any
network, any intersection list and any random choices, where `roadLen` is
the (positive) Euclidean length of the current road.  An overshoot is
either reset to 0 on a new segment (light granted, or dead-end
re-placement) or left at its previous in-range value (light denied); it is
never left above 1. -/
theorem c3_vehicle_progress_bound (net : List Road)
    (inters : List Traffic.Intersection) (v : Traffic.Vehicle)
    (delta roadLen : ℚ) (choice1 choice2 : ℕ)
    (h0 : 0 ≤ v.progress) (h1 : v.progress ≤ 1)
    (hd : 0 ≤ delta) (hs : 0 ≤ v.speed) (hl : 0 < roadLen)
    (_hlen : roadLen ^ 2 = dist2 v.road.start v.road.end_) :
    0 ≤ (Traffic.updateVehicle net inters v delta roadLen choice1 choice2).progress
    ∧ (Traffic.updateVehicle net inters v delta roadLen choice1 choice2).progress ≤ 1 := by
  have hinc : 0 ≤ delta * v.speed / roadLen := by positivity
  unfold Traffic.updateVehicle
  by_cases hge : 1 ≤ v.progress + delta * v.speed / roadLen
  · simp only [hge, if_true]
    cases hnr : Traffic.findNextRoad net v.road choice1 with
    | none => simp
    | some nextRoad =>
      by_cases hc : Traffic.checkTrafficLight inters v.road nextRoad
      · simp [hc]
      · simp [hc, h0, h1]
  · simp only [hge, if_false]
    constructor
    · exact add_nonneg h0 hinc
    · linarith [lt_of_not_le hge]

/-- C3 (witness): a vehicle halfway along `roadA` (length 70), tick of one
second. -/
theorem c3_witness :
    0 ≤ (Traffic.updateVehicle [roadA] [] { road := roadA, progress := 1/2, speed := 15 }
          1 70 0 0).progress
    ∧ (Traffic.updateVehicle [roadA] [] { road := roadA, progress := 1/2, speed := 15 }
          1 70 0 0).progress ≤ 1 :=
  c3_vehicle_progress_bound [roadA] [] { road := roadA, progress := 1/2, speed := 15 }
    1 70 0 0 (by norm_num) (by norm_num) (by norm_num) (by norm_num) (by norm_num)
    (by norm_num [roadA, dist2])

/-- Helper (LOD scenario): the state after registering block `(5/3, 5/3)`
(base world position `(100, 100)`), viewpoint at the origin, and one update
cycle with elapsed time equal to `updateFrequency`: the block is activated
— its build function has been invoked once and its handles stored. -/
theorem lodScenarioFirstState (fn : ℚ → ℚ → List ℕ) :
    c4AfterFirst fn =
      { blockSize := 50, roadWidth := 10, viewDistance := 600
      , blockRegistryDistance := 1200, updateFrequency := 1/2, updateTimer := 0
      , cameraX := 0, cameraZ := 0
      , registry := [((5/3, 5/3),
          { x := 5/3, z := 5/3, createBuildingsFn := fn
          , buildings := fn (5/3) (5/3), isActive := true
          , baseX := 100, baseZ := 100, buildingsCounted := true })]
      , activeBlocks := [(5/3, 5/3)], scene := []
      , stats :=
          { totalBuildings := ((fn (5/3) (5/3)).length : ℤ)
          , activeBuildings := ((fn (5/3) (5/3)).length : ℤ)
          , totalBlocks := 1, activeBlocks := 1 }
      , buildCalls := 1 } := by
  norm_num [c4AfterFirst, c4Start, LOD.update, LOD.mkLOD, LOD.registerBlock,
    LOD.findRecord, LOD.updateVisibility, LOD.shouldBlockBeUnregistered,
    LOD.shouldBlockBeActive, LOD.activateBlock, LOD.setRecord, List.find?]

/-- Helper (LOD scenario): with the viewpoint at `(1000, 0, 1000)` the next
update cycle leaves no record under the block's key. -/
theorem lodScenarioSecondNone (fn : ℚ → ℚ → List ℕ) :
    LOD.findRecord (c4AfterSecond fn) c4Key = none := by
  rw [c4AfterSecond, lodScenarioFirstState]
  norm_num [c4Key, LOD.update, LOD.findRecord, LOD.updateVisibility,
    LOD.shouldBlockBeUnregistered, LOD.shouldBlockBeActive,
    LOD.deactivateBlock, LOD.unregisterBlock, LOD.setRecord, List.find?]

/-- C4 (counterexample): with the concrete build function `fun _ _ => [0]`,
the viewpoint at the origin activates the registered block at base
`(100, 0, 100)`, but after moving the viewpoint to `(1000, 0, 1000)` and
running one update cycle the record is *gone from the registry* — the
distance `900·√2 ≈ 1272.8` already exceeds `blockRegistryDistance = 1200`,
so the update unregisters instead of deactivating; the claim's "deactivates
it (the record still registered)" is false at this viewpoint. -/
theorem c4_counterexample :
    ((LOD.findRecord (c4AfterFirst (fun _ _ => [0])) c4Key).map
        (fun r => r.isActive)) = some true
    ∧ LOD.findRecord (c4AfterSecond (fun _ _ => [0])) c4Key = none := by
  constructor
  · rw [lodScenarioFirstState]
    norm_num [c4Key, LOD.findRecord, List.find?]
  · exact lodScenarioSecondNone (fun _ _ => [0])

/-- C4 (amended): for any build function, the scenario behaves as the code
dictates — the origin viewpoint's update cycle activates the block at base
`(100, 0, 100)`; the `(1000, 0, 1000)` viewpoint is already beyond
`blockRegistryDistance` (squared distance `1 620 000 > 1 440 000`), so one
update cycle unregisters the block outright (deactivation happens inside
the unregister call), and subsequent registry queries find no record. -/
theorem c4_lod_distance_amended (fn : ℚ → ℚ → List ℕ) :
    ((c4AfterFirst fn).registry.map (fun e => (e.1, e.2.isActive)))
        = [(c4Key, true)]
    ∧ (c4AfterSecond fn).registry = []
    ∧ LOD.findRecord (c4AfterSecond fn) c4Key = none := by
  refine ⟨?_, ?_, lodScenarioSecondNone fn⟩
  · rw [lodScenarioFirstState]
    norm_num [c4Key]
  · rw [c4AfterSecond, lodScenarioFirstState]
    norm_num [c4Key, LOD.update, LOD.updateVisibility,
      LOD.shouldBlockBeUnregistered, LOD.shouldBlockBeActive,
      LOD.deactivateBlock, LOD.unregisterBlock, LOD.setRecord,
      LOD.findRecord, List.find?]

/-- Helper: `find?` skips a prefix in which nothing matches. -/
theorem find?_append_none {α : Type} (p : α → Bool) {l1 : List α} (l2 : List α)
    (h : l1.find? p = none) : (l1 ++ l2).find? p = l2.find? p := by
  induction l1 with
  | nil => simp
  | cons a t ih =>
    rw [List.find?_cons] at h
    cases hpa : p a with
    | true => simp [hpa] at h
    | false =>
      rw [hpa] at h
      simp [List.find?_cons, hpa, ih h]

/-- Helper: looking up the key just overwritten in an association list. -/
theorem find?_map_set {β : Type} (l : List ((ℚ × ℚ) × β)) (k : ℚ × ℚ) (r : β) :
    ((l.map (fun e => if e.1 = k then (k, r) else e)).find?
        (fun e => decide (e.1 = k)))
      = if (l.find? (fun e => decide (e.1 = k))).isSome then some (k, r) else none := by
  induction l with
  | nil => simp
  | cons e t ih =>
    simp only [List.map_cons]
    by_cases he : e.1 = k
    · simp [he]
    · rw [if_neg he]
      rw [List.find?_cons_of_neg _ (by simpa using he),
          List.find?_cons_of_neg _ (by simpa using he)]
      exact ih

/-- Helper: `findRecord` after `setRecord` at the same key. -/
theorem findRecord_setRecord {H : Type} (s : LOD.LODState H) (k : ℚ × ℚ)
    (r : LOD.BlockRecord H) :
    LOD.findRecord (LOD.setRecord s k r) k
      = if (LOD.findRecord s k).isSome then some r else none := by
  unfold LOD.findRecord LOD.setRecord
  simp only [find?_map_set]
  cases h : (List.find? (fun e => decide (e.1 = k)) s.registry) <;> simp [h]

/-- Helper: after `registerBlock` the key is always present. -/
theorem findRecord_registerBlock_isSome {H : Type} (s : LOD.LODState H)
    (x z : ℚ) (f : ℚ → ℚ → List H) :
    (LOD.findRecord (LOD.registerBlock s x z f) (x, z)).isSome = true := by
  by_cases h : (LOD.findRecord s (x, z)).isSome
  · rw [LOD.registerBlock]
    simp only [h, if_true]
  · have hnone : s.registry.find? (fun e => decide (e.1 = (x, z))) = none := by
      have h2 : ¬ (s.registry.find? (fun e => decide (e.1 = (x, z)))).isSome = true := by
        intro hx
        apply h
        unfold LOD.findRecord
        simpa using hx
      exact Option.not_isSome_iff_eq_none.mp h2
    unfold LOD.registerBlock
    rw [if_neg h]
    unfold LOD.findRecord
    simp [find?_append_none _ _ hnone]

/-- Helper: `registerBlock` never changes the build-invocation counter: the
factory is stored, not called. -/
theorem registerBlock_buildCalls {H : Type} (s : LOD.LODState H) (x z : ℚ)
    (f : ℚ → ℚ → List H) :
    (LOD.registerBlock s x z f).buildCalls = s.buildCalls := by
  unfold LOD.registerBlock
  by_cases h : (LOD.findRecord s (x, z)).isSome = true <;> simp [h]

/-- Helper: registering an already-registered key is the identity, whatever
build function the second call carries. -/
theorem registerBlock_twice {H : Type} (s : LOD.LODState H) (x z : ℚ)
    (f g : ℚ → ℚ → List H) :
    LOD.registerBlock (LOD.registerBlock s x z f) x z g
      = LOD.registerBlock s x z f := by
  have h := findRecord_registerBlock_isSome s x z f
  rw [LOD.registerBlock]
  simp only [h, if_true]

/-- Helper: `activateBlock` on an unregistered key is the identity. -/
theorem activateBlock_of_none {H : Type} {s : LOD.LODState H} {k : ℚ × ℚ}
    (hf : LOD.findRecord s k = none) : LOD.activateBlock s k = s := by
  rw [LOD.activateBlock, hf]

/-- Helper: `activateBlock` on an already-active record is the identity. -/
theorem activateBlock_of_active {H : Type} {s : LOD.LODState H} {k : ℚ × ℚ}
    {b : LOD.BlockRecord H} (hf : LOD.findRecord s k = some b)
    (hb : b.isActive = true) : LOD.activateBlock s k = s := by
  rw [LOD.activateBlock, hf]
  simp [hb]

/-- Helper: the record stored after a real activation. -/
theorem findRecord_activateBlock {H : Type} {s : LOD.LODState H} {k : ℚ × ℚ}
    {b : LOD.BlockRecord H} (hf : LOD.findRecord s k = some b)
    (hb : b.isActive = false) :
    LOD.findRecord (LOD.activateBlock s k) k
      = some { b with
          buildings := b.createBuildingsFn b.x b.z
        , isActive := true
        , buildingsCounted := true } := by
  rw [LOD.activateBlock, hf]
  simp only [hb, Bool.false_eq_true, if_false]
  have hsome : (LOD.findRecord s k).isSome = true := by rw [hf]; rfl
  have hset := findRecord_setRecord s k
      { b with
        buildings := b.createBuildingsFn b.x b.z
      , isActive := true
      , buildingsCounted := true }
  rw [hsome] at hset
  simp at hset
  exact hset

/-- Helper: activating twice equals activating once. -/
theorem activateBlock_idem {H : Type} (s : LOD.LODState H) (k : ℚ × ℚ) :
    LOD.activateBlock (LOD.activateBlock s k) k = LOD.activateBlock s k := by
  rcases hf : LOD.findRecord s k with _ | b
  · have h1 := activateBlock_of_none hf
    rw [h1]
    exact h1
  · by_cases ha : b.isActive = true
    · have h1 := activateBlock_of_active hf ha
      rw [h1]
      exact h1
    · have hb : b.isActive = false := by
        cases hx : b.isActive
        · rfl
        · exact absurd hx ha
      exact activateBlock_of_active (findRecord_activateBlock hf hb) rfl

/-- Helper: `deactivateBlock` on an unregistered or inactive block is the
identity (and, being a total function, cannot throw). -/
theorem deactivateBlock_of_inactive {H : Type} [DecidableEq H]
    {s : LOD.LODState H} {k : ℚ × ℚ}
    (h : (LOD.findRecord s k).map (fun r => r.isActive) ≠ some true) :
    LOD.deactivateBlock s k = s := by
  rcases hf : LOD.findRecord s k with _ | b
  · rw [LOD.deactivateBlock, hf]
  · have hb : b.isActive = false := by
      rw [hf] at h
      simpa using h
    rw [LOD.deactivateBlock, hf]
    simp [hb]

/-- C5: the LOD laziness/idempotence contract.  `registerBlock` performs no
build-function invocation (the instrumentation counter is unchanged) and,
called again on an already-registered key with any other factory, leaves
the state — in particular the existing record — unchanged; `activateBlock`
twice is `activateBlock` once (the stored `buildings` list included, so no
duplicate instantiation); `deactivateBlock` on a block that is not active
is a no-op, and every operation is a total function (nothing throws). -/
theorem c5_lod_laziness_idempotence {H : Type} [DecidableEq H]
    (s : LOD.LODState H) (x z : ℚ) (f g : ℚ → ℚ → List H) (k : ℚ × ℚ) :
    (LOD.registerBlock s x z f).buildCalls = s.buildCalls
    ∧ LOD.registerBlock (LOD.registerBlock s x z f) x z g
        = LOD.registerBlock s x z f
    ∧ LOD.activateBlock (LOD.activateBlock s k) k = LOD.activateBlock s k
    ∧ ((LOD.findRecord s k).map (fun r => r.isActive) ≠ some true →
        LOD.deactivateBlock s k = s) :=
  ⟨registerBlock_buildCalls s x z f, registerBlock_twice s x z f g,
   activateBlock_idem s k, fun h => deactivateBlock_of_inactive h⟩

/-- C5 (witness): deactivating the freshly registered (hence inactive)
block `(1, 2)` leaves the state unchanged. -/
theorem c5_witness :
    LOD.deactivateBlock
        (LOD.registerBlock (LOD.mkLOD ℕ 50 10 0 0) 1 2 (fun _ _ => [5])) (1, 2)
      = LOD.registerBlock (LOD.mkLOD ℕ 50 10 0 0) 1 2 (fun _ _ => [5]) :=
  (c5_lod_laziness_idempotence
      (LOD.registerBlock (LOD.mkLOD ℕ 50 10 0 0) 1 2 (fun _ _ => [5]))
      3 4 (fun _ _ => []) (fun _ _ => []) (1, 2)).2.2.2
    (by norm_num [LOD.registerBlock, LOD.mkLOD, LOD.findRecord, List.find?])

/-- C7: a pedestrian in the `crossing` state whose path is empty or whose
target position is null is reset to `idle` with a fresh idle wait timer
(`1 + waitDraw·4`) by a single `updatePedestrian` call — the handler's
guard fires before any dereference, and the embedding is a total function,
so the call cannot throw. -/
theorem c7_pedestrian_recovery (sidewalks : List SidewalkZone)
    (crosswalks : List Crosswalk) (p : Ped.Pedestrian) (delta : ℚ) (o : Ped.PedRand)
    (hstate : p.state = Ped.PedState.crossing)
    (hbad : p.path = [] ∨ p.targetPosition = none) :
    (Ped.updatePedestrian sidewalks crosswalks p delta o).state = Ped.PedState.idle
    ∧ (Ped.updatePedestrian sidewalks crosswalks p delta o).waitTime
        = 1 + o.waitDraw * 4 := by
  have hres : Ped.updatePedestrian sidewalks crosswalks p delta o
      = Ped.setIdleBehavior p o := by
    unfold Ped.updatePedestrian
    rw [hstate]
    unfold Ped.updateCrossingPedestrian
    rcases hbad with hpath | htp
    · rw [hpath]
      rcases htp2 : p.targetPosition with _ | t <;> simp
    · rw [htp]
  rw [hres]
  exact ⟨rfl, rfl⟩

/-- C7 (witness): the stuck pedestrian recovers to `idle` in one call. -/
theorem c7_witness :
    (Ped.updatePedestrian [] [] stuckPed 1 pedRand0).state = Ped.PedState.idle
    ∧ (Ped.updatePedestrian [] [] stuckPed 1 pedRand0).waitTime
        = 1 + pedRand0.waitDraw * 4 :=
  c7_pedestrian_recovery [] [] stuckPed 1 pedRand0 rfl (Or.inl rfl)

/-- Helper: `setIdleBehavior` sets the `idle` state. -/
theorem setIdle_state (p : Ped.Pedestrian) (o : Ped.PedRand) :
    (Ped.setIdleBehavior p o).state = Ped.PedState.idle := rfl

/-- Helper: `setWalkingBehavior` sets the `walking` state. -/
theorem setWalking_state (p : Ped.Pedestrian) (o : Ped.PedRand) :
    (Ped.setWalkingBehavior p o).state = Ped.PedState.walking := rfl

/-- Helper: `setCrossingBehavior` ends in `crossing`, or in `walking` via
its two fallbacks — never in `waiting`. -/
theorem setCrossing_state (sw : List SidewalkZone) (cws : List Crosswalk)
    (p : Ped.Pedestrian) (o : Ped.PedRand) :
    (Ped.setCrossingBehavior sw cws p o).state = Ped.PedState.crossing
    ∨ (Ped.setCrossingBehavior sw cws p o).state = Ped.PedState.walking := by
  unfold Ped.setCrossingBehavior
  split
  · exact Or.inr (setWalking_state _ _)
  · split
    · exact Or.inr (setWalking_state _ _)
    · exact Or.inl rfl

/-- Helper: the idle handler never produces `waiting`. -/
theorem updateIdle_ne_waiting (sw : List SidewalkZone) (cws : List Crosswalk)
    (p : Ped.Pedestrian) (delta : ℚ) (o : Ped.PedRand)
    (hp : p.state ≠ Ped.PedState.waiting) :
    (Ped.updateIdlePedestrian sw cws p delta o).state ≠ Ped.PedState.waiting := by
  unfold Ped.updateIdlePedestrian
  dsimp only
  split
  · split
    · rw [setWalking_state]
      intro hx
      cases hx
    · rcases setCrossing_state sw cws _ o with hc | hc <;> rw [hc] <;>
        intro hx <;> cases hx
  · exact hp

/-- Helper: the walking handler never produces `waiting`. -/
theorem updateWalking_ne_waiting (p : Ped.Pedestrian) (delta : ℚ) (o : Ped.PedRand)
    (hp : p.state ≠ Ped.PedState.waiting) :
    (Ped.updateWalkingPedestrian p delta o).state ≠ Ped.PedState.waiting := by
  unfold Ped.updateWalkingPedestrian
  split
  · exact hp
  · dsimp only
    split
    · rw [setIdle_state]
      intro hx
      cases hx
    · exact hp

/-- Helper: the crossing handler never produces `waiting`. -/
theorem updateCrossing_ne_waiting (p : Ped.Pedestrian) (delta : ℚ) (o : Ped.PedRand)
    (hp : p.state ≠ Ped.PedState.waiting) :
    (Ped.updateCrossingPedestrian p delta o).state ≠ Ped.PedState.waiting := by
  unfold Ped.updateCrossingPedestrian
  split
  · rw [setIdle_state]
    intro hx
    cases hx
  · rw [setIdle_state]
    intro hx
    cases hx
  · dsimp only
    split
    · split
      · rw [setIdle_state]
        intro hx
        cases hx
      · exact hp
    · exact hp

/-- Helper: one `updatePedestrian` step preserves "not in `waiting`":
no handler ever assigns the `waiting` state (only `updateWaitingPedestrian`
could keep it, and it is reached only *from* `waiting`). -/
theorem updatePedestrian_state_ne_waiting (sw : List SidewalkZone)
    (cws : List Crosswalk) (p : Ped.Pedestrian) (delta : ℚ) (o : Ped.PedRand)
    (h : p.state ≠ Ped.PedState.waiting) :
    (Ped.updatePedestrian sw cws p delta o).state ≠ Ped.PedState.waiting := by
  unfold Ped.updatePedestrian
  cases hst : p.state with
  | idle => exact updateIdle_ne_waiting sw cws p delta o h
  | walking => exact updateWalking_ne_waiting p delta o h
  | crossing => exact updateCrossing_ne_waiting p delta o h
  | waiting => exact absurd hst h

/-- C9: starting from the initial `idle` state, no sequence of
`updatePedestrian` calls — any deltas, any random draws — ever puts a
pedestrian into the `waiting` state, even though that state has its own
update handler. -/
theorem c9_waiting_state_never_entered (sw : List SidewalkZone)
    (cws : List Crosswalk) (p : Ped.Pedestrian)
    (hp : p.state = Ped.PedState.idle) (steps : List (ℚ × Ped.PedRand)) :
    (steps.foldl (fun q s => Ped.updatePedestrian sw cws q s.1 s.2) p).state
      ≠ Ped.PedState.waiting := by
  have h0 : p.state ≠ Ped.PedState.waiting := by
    rw [hp]
    intro hx
    cases hx
  clear hp
  induction steps generalizing p with
  | nil => exact h0
  | cons s rest ih =>
    rw [List.foldl_cons]
    exact ih _ (updatePedestrian_state_ne_waiting sw cws p s.1 s.2 h0)

/-- C9 (witness): one concrete tick of the fresh idle pedestrian. -/
theorem c9_witness :
    (([(1, pedRand0)] : List (ℚ × Ped.PedRand)).foldl
        (fun q s => Ped.updatePedestrian [] [] q s.1 s.2) idlePed).state
      ≠ Ped.PedState.waiting :=
  c9_waiting_state_never_entered [] [] idlePed rfl [(1, pedRand0)]

/-- C8 (counterexample): the 1×1 window grid of `c8Grid` registers two lit
windows with stored intensities 1/2 and 9/10.  After `updateWindowLights
(false)` the *first* registered window's material — the single shared
`materials.windowLit` instance — carries emissive intensity 9/10, not its
own stored 1/2: the per-window assignment claimed by the spec is defeated
by the material aliasing. -/
theorem c8_counterexample :
    c8Entries.length = 2
    ∧ (c8Entries.getD 0 { mat := Win.MatId.glassWindow, intensity := 0 }).intensity
        = 1 / 2
    ∧ (c8Entries.getD 0 { mat := Win.MatId.glassWindow, intensity := 0 }).mat
        = Win.MatId.windowLit
    ∧ c8Night Win.MatId.windowLit = 9 / 10
    ∧ ((9 : ℚ) / 10 ≠ 1 / 2) := by
  refine ⟨?_, ?_, ?_, ?_, ?_⟩ <;> with_unfolding_all decide

/-- Helper: a created window's material reference is the shared lit
material exactly when its lit draw succeeded. -/
theorem mkWindow_mat (bw bh bd xOff yOff zOff : ℚ) (rows cols : ℕ)
    (isX : Bool) (sign : ℚ) (row col : ℕ) (isLit : Bool) :
    (Win.mkWindow bw bh bd xOff yOff zOff rows cols isX sign row col isLit).mat
      = (if isLit then Win.MatId.windowLit else Win.MatId.glassWindow) := by
  unfold Win.mkWindow
  split <;> rfl

/-- Helper: every generated window carries a registry entry exactly when it
is lit, and that entry stores the lit material and the intensity
`0.4 + draw·0.6`. -/
theorem createWindowGrid_pointwise (rows cols : ℕ) (bw bh bd xOff yOff zOff : ℚ)
    (rand : ℕ → ℕ → ℕ → ℚ × ℚ) :
    ∀ pr ∈ Win.createWindowGrid rows cols bw bh bd xOff yOff zOff rand,
      ((pr.2).isSome = decide (pr.1.mat = Win.MatId.windowLit))
      ∧ (∀ e, pr.2 = some e → e.mat = Win.MatId.windowLit
          ∧ ∃ a b c, e.intensity = 2 / 5 + (rand a b c).2 * 3 / 5) := by
  intro pr hpr
  unfold Win.createWindowGrid at hpr
  simp only [List.mem_flatMap, List.mem_map, List.mem_range] at hpr
  obtain ⟨f, hf, row, hrow, col, hcol, hpr⟩ := hpr
  subst hpr
  cases hlit : decide ((rand f.1 row col).1 < 3 / 10) with
  | false =>
    constructor
    · simp [hlit, mkWindow_mat]
    · intro e he
      simp [hlit] at he
  | true =>
    constructor
    · simp [hlit, mkWindow_mat]
    · intro e he
      simp [hlit] at he
      subst he
      exact ⟨rfl, f.1, row, col, rfl⟩

/-- Helper: when the presence of the second component tracks a predicate on
the first, the `filterMap` of seconds and the `filter` of firsts have the
same length (the "exactly once" correspondence). -/
theorem filterMap_snd_length {α β : Type} (l : List (α × Option β)) (p : α → Bool)
    (h : ∀ x ∈ l, (x.2).isSome = p x.1) :
    (l.filterMap (fun e => e.2)).length = ((l.map (fun e => e.1)).filter p).length := by
  induction l with
  | nil => simp
  | cons e t ih =>
    have he := h e (by simp)
    have ht : ∀ x ∈ t, (x.2).isSome = p x.1 := fun x hx => h x (by simp [hx])
    cases hs : e.2 with
    | none =>
      rw [hs] at he
      simp only [Option.isSome_none] at he
      simp [List.filterMap_cons, hs, List.filter_cons, ← he, ih ht]
    | some b =>
      rw [hs] at he
      simp only [Option.isSome_some] at he
      simp [List.filterMap_cons, hs, List.filter_cons, ← he, ih ht]

/-- Helper: the registry fold writes the shared lit material last-wins —
night yields the last registered entry's intensity, day yields zero. -/
theorem updateWindowLights_val (entries : List Win.WindowLightEntry)
    (em : Win.MatId → ℚ)
    (hmat : ∀ e ∈ entries, e.mat = Win.MatId.windowLit) :
    Win.updateWindowLights false entries em Win.MatId.windowLit
      = ((entries.getLast?.map (fun e => e.intensity)).getD
          (em Win.MatId.windowLit))
    ∧ Win.updateWindowLights true entries em Win.MatId.windowLit
      = if entries.isEmpty then em Win.MatId.windowLit else 0 := by
  induction entries generalizing em with
  | nil => simp [Win.updateWindowLights]
  | cons e t ih =>
    have hemat := hmat e (by simp)
    have ht : ∀ x ∈ t, x.mat = Win.MatId.windowLit := fun x hx => hmat x (by simp [hx])
    have hrecF : Win.updateWindowLights false (e :: t) em
        = Win.updateWindowLights false t
            (fun m => if m = e.mat then e.intensity else em m) := rfl
    have hrecT : Win.updateWindowLights true (e :: t) em
        = Win.updateWindowLights true t
            (fun m => if m = e.mat then 0 else em m) := rfl
    obtain ⟨ihF, _⟩ := ih (fun m => if m = e.mat then e.intensity else em m) ht
    obtain ⟨_, ihT2⟩ := ih (fun m => if m = e.mat then 0 else em m) ht
    constructor
    · rw [hrecF, ihF]
      cases t with
      | nil => simp [hemat]
      | cons u us =>
        rcases hgl : (u :: us).getLast? with _ | a
        · simp at hgl
        · rw [List.getLast?_cons_cons, hgl]
          simp
    · rw [hrecT, ihT2]
      cases t with
      | nil => simp [hemat]
      | cons u us => simp

/-- C8 (amended): every window flagged lit at generation time is entered
exactly once into the `windowLights` registry (the registry length equals
the number of windows referencing the lit material) with a stored positive
intensity; but because every lit window shares the single
`materials.windowLit` instance, `updateWindowLights(false)` leaves the
shared material's — hence every lit window's — emissive intensity equal to
the intensity stored for the *last* registered entry (not each window's
own), and `updateWindowLights(true)` sets it to zero. -/
theorem c8_window_registry_amended
    (rows cols : ℕ) (bw bh bd xOff yOff zOff : ℚ) (rand : ℕ → ℕ → ℕ → ℚ × ℚ)
    (hr : ∀ a b c, 0 ≤ (rand a b c).2) :
    (Win.windowLightsOf (Win.createWindowGrid rows cols bw bh bd xOff yOff zOff rand)).length
      = ((Win.windowsOf (Win.createWindowGrid rows cols bw bh bd xOff yOff zOff rand)).filter
          (fun w => decide (w.mat = Win.MatId.windowLit))).length
    ∧ (∀ e ∈ Win.windowLightsOf (Win.createWindowGrid rows cols bw bh bd xOff yOff zOff rand),
        e.mat = Win.MatId.windowLit ∧ 0 < e.intensity)
    ∧ (∀ (entries : List Win.WindowLightEntry) (em : Win.MatId → ℚ),
        (∀ e ∈ entries, e.mat = Win.MatId.windowLit) →
        Win.updateWindowLights false entries em Win.MatId.windowLit
          = ((entries.getLast?.map (fun e => e.intensity)).getD (em Win.MatId.windowLit))
        ∧ Win.updateWindowLights true entries em Win.MatId.windowLit
          = if entries.isEmpty then em Win.MatId.windowLit else 0) := by
  refine ⟨?_, ?_, fun entries em hm => updateWindowLights_val entries em hm⟩
  · exact filterMap_snd_length _ _
      (fun x hx => (createWindowGrid_pointwise rows cols bw bh bd xOff yOff zOff rand x hx).1)
  · intro e he
    unfold Win.windowLightsOf at he
    rw [List.mem_filterMap] at he
    obtain ⟨pr, hpr, hsome⟩ := he
    obtain ⟨hmat, a, b, c, hint⟩ :=
      (createWindowGrid_pointwise rows cols bw bh bd xOff yOff zOff rand pr hpr).2 e hsome
    refine ⟨hmat, ?_⟩
    rw [hint]
    have := hr a b c
    linarith [mul_nonneg this (by norm_num : (0:ℚ) ≤ 3)]

/-- C8 (witness): the amended theorem instantiated at the concrete 1×1
grid scenario. -/
theorem c8_witness :
    (Win.windowLightsOf c8Grid).length
      = ((Win.windowsOf c8Grid).filter
          (fun w => decide (w.mat = Win.MatId.windowLit))).length
    ∧ (Win.updateWindowLights false c8Entries Win.initialEmissive Win.MatId.windowLit
        = ((c8Entries.getLast?.map (fun e => e.intensity)).getD
            (Win.initialEmissive Win.MatId.windowLit))) :=
  ⟨ (c8_window_registry_amended 1 1 10 4 10 0 2 0 c8Rand
      (by
        intro a b c
        rcases a with _ | _ | n <;> norm_num [c8Rand])).1
  , ((c8_window_registry_amended 1 1 10 4 10 0 2 0 c8Rand
      (by
        intro a b c
        rcases a with _ | _ | n <;> norm_num [c8Rand])).2.2 c8Entries Win.initialEmissive
      (by with_unfolding_all decide)).1 ⟩
